import Mathlib

/-!
Verification of the gitops-lite reconciler and the model-promotion tool of
soe-eda-runner, as a shallow embedding in Lean 4.

Embedding conventions:
* Python dictionaries become association lists `List (String × α)`; an empty
  dictionary (falsy in Python) is the empty list.
* Python floats become the inductive `PyFloat` (NaN, ±infinity, or an exact
  rational); the single subtraction and comparison per metric performed by the
  code involve no rounding subtleties relevant to the properties below, so
  finite arithmetic is modelled exactly on rationals.
* `subprocess` invocations of the cluster binary become an oracle function
  from the invoked argument list (and optional stdin payload) to a completed
  process; the fixed `--kubeconfig`/`--context` prefix added by KubectlRunner
  is constant per run and folded into the oracle.
* `raise SystemExit` becomes the error branch of an `Except`; functions with
  observable side effects additionally return the trace of external calls
  made before returning or raising.
* Manifest rendering (`render_manifests`) performs no cluster-binary call;
  verbs are modelled from the rendered manifest text / parsed documents on.
-/

namespace SoeEda

/-- IEEE-style Python float value: NaN, +inf, -inf, or a finite value
(modelled as an exact rational). -/
inductive PyFloat
  | nan
  | inf
  | ninf
  | fin (q : ℚ)
  deriving DecidableEq, Repr

namespace PyFloat

/-- Python float subtraction `x - y` (finite arithmetic exact). -/
def sub : PyFloat → PyFloat → PyFloat
  | nan, _ => nan
  | _, nan => nan
  | inf, inf => nan
  | inf, _ => inf
  | ninf, ninf => nan
  | ninf, _ => ninf
  | fin _, inf => ninf
  | fin _, ninf => inf
  | fin a, fin b => fin (a - b)

/-- Python float negation `-x`. -/
def neg : PyFloat → PyFloat
  | nan => nan
  | inf => ninf
  | ninf => inf
  | fin a => fin (-a)

/-- Python float comparison `x >= y` (False whenever either side is NaN). -/
def ge : PyFloat → PyFloat → Bool
  | nan, _ => false
  | _, nan => false
  | inf, _ => true
  | _, inf => false
  | ninf, ninf => true
  | ninf, _ => false
  | fin _, ninf => true
  | fin a, fin b => b ≤ a

end PyFloat

/-- Lookup in an association list modelling `dict.get(k)`: the value of the
first pair whose key matches. -/
def alookup {α : Type} : List (String × α) → String → Option α
  | [], _ => none
  | p :: ps, k => if p.1 = k then some p.2 else alookup ps k

/-- `dict.get(k, default)`. -/
def dgetD (d : List (String × PyFloat)) (k : String) (v : PyFloat) : PyFloat :=
  (alookup d k).getD v

/-- The reasons returned by `evaluate` (auto_promote.py lines 51, 53, 62); the
two signed 4-decimal formatted delta strings are modelled structurally by the
deltas themselves. -/
inductive Reason
  | candidateUnavailable
  | noCurrentModel
  | deltas (r2_gain rmse_delta : PyFloat)
  deriving DecidableEq, Repr

/-- `evaluate(current, candidate, thresholds)` from auto_promote.py lines
45-63: empty candidate wins first, then empty current; otherwise the two
threshold comparisons are conjoined. -/
def evaluate (current candidate thresholds : List (String × PyFloat)) :
    Bool × List Reason :=
  if candidate = [] then (false, [Reason.candidateUnavailable])
  else if current = [] then (true, [Reason.noCurrentModel])
  else
    let r2_gain := PyFloat.sub (dgetD candidate "r2" (PyFloat.fin 0))
      (dgetD current "r2" (PyFloat.fin 0))
    let rmse_delta := PyFloat.sub (dgetD candidate "rmse" PyFloat.inf)
      (dgetD current "rmse" PyFloat.inf)
    let rmse_drop := PyFloat.neg rmse_delta
    let improved :=
      PyFloat.ge r2_gain (dgetD thresholds "r2_min_gain" (PyFloat.fin (1 / 100))) &&
      PyFloat.ge rmse_drop (dgetD thresholds "rmse_min_drop" (PyFloat.fin 100))
    (improved, [Reason.deltas r2_gain rmse_delta])

/-- The improvement formula as the specification words it (§4.6): gain of r2
at least `r2_min_gain` AND drop of rmse at least `rmse_min_drop`, with missing
r2 defaulting to 0.0 and missing rmse to +infinity. Stated separately from
`evaluate` so the code's verdict can be compared against it. -/
def improvedSpec (current candidate thresholds : List (String × PyFloat)) : Bool :=
  PyFloat.ge
    (PyFloat.sub (dgetD candidate "r2" (PyFloat.fin 0)) (dgetD current "r2" (PyFloat.fin 0)))
    (dgetD thresholds "r2_min_gain" (PyFloat.fin (1 / 100))) &&
  PyFloat.ge
    (PyFloat.neg (PyFloat.sub (dgetD candidate "rmse" PyFloat.inf)
      (dgetD current "rmse" PyFloat.inf)))
    (dgetD thresholds "rmse_min_drop" (PyFloat.fin 100))

/-- YAML scalar values, as far as the promotion policy needs them. -/
inductive YVal
  | str (v : String)
  | num (v : ℚ)
  | bool (v : Bool)
  | null
  deriving DecidableEq, Repr

/-- Python `{**base, **upd}`: keys of `base` in order (values overridden by
`upd` where present), then the keys only in `upd`, in `upd` order. -/
def dictMerge (base upd : List (String × YVal)) : List (String × YVal) :=
  (base.map (fun p => (p.1, (alookup upd p.1).getD p.2))) ++
    upd.filter (fun p => (alookup base p.1).isNone)

/-- `DEFAULT_POLICY` from auto_promote.py lines 20-23, as its two mappings. -/
def DEFAULT_POLICY_thresholds : List (String × YVal) :=
  [("r2_min_gain", YVal.num (1 / 100)), ("rmse_min_drop", YVal.num 100)]

/-- `DEFAULT_POLICY["actions"]`. -/
def DEFAULT_POLICY_actions : List (String × YVal) :=
  [("auto_promote", YVal.bool true), ("target_overlay", YVal.str "dev")]

/-- The parsed on-disk policy document: its `thresholds` and `actions`
sub-mappings (`data.get("thresholds", {})`, `data.get("actions", {})`). -/
structure PolicyDoc where
  thresholds : List (String × YVal) := []
  actions : List (String × YVal) := []
  deriving DecidableEq, Repr

/-- The merged policy held in memory. -/
structure Policy where
  thresholds : List (String × YVal)
  actions : List (String × YVal)
  deriving DecidableEq, Repr

/-- `load_policy()` from auto_promote.py lines 26-34; `none` models an absent
policy file, `some d` the parsed document. -/
def load_policy (file : Option PolicyDoc) : Policy :=
  match file with
  | none => { thresholds := DEFAULT_POLICY_thresholds, actions := DEFAULT_POLICY_actions }
  | some d =>
    { thresholds := dictMerge DEFAULT_POLICY_thresholds d.thresholds
      actions := dictMerge DEFAULT_POLICY_actions d.actions }

/-! ## gitops-lite embedding -/

/-- A completed process result (`subprocess.CompletedProcess`). -/
structure Proc where
  returncode : Int
  stdout : String
  stderr : String
  deriving DecidableEq, Repr

/-- One invocation of the cluster binary: the argument list after the fixed
base prefix, and the optional stdin payload. -/
structure Call where
  args : List String
  input : Option String
  deriving DecidableEq, Repr

/-- The cluster binary as an oracle: what each invocation returns. -/
def KubeOracle : Type := Call → Proc

/-- A `raise SystemExit` outcome: either an integer exit code or a message
(which Python turns into exit code 1 after printing the message). -/
inductive PyExit
  | code (c : Int)
  | msg (s : String)
  deriving DecidableEq, Repr

/-- The command-line flags of gitops-lite.py relevant to apply/prune/sync
(`--server-side`, `--enable-prune`, `--selector`); `path`, `--kustomize` and
the kubeconfig/context/binary flags are abstracted into the rendered manifest
and the oracle. -/
structure GitopsArgs where
  server_side : Bool
  enable_prune : Bool
  selector : Option String
  deriving DecidableEq, Repr

/-- Python truthiness of an optional string (`not args.selector`): falsy when
absent or empty. -/
def strFalsy : Option String → Bool
  | none => true
  | some s => s = ""

/-- `build_apply_args` from gitops-lite.py lines 87-95; raises
`SystemExit("Prune operations require --selector")` when pruning is requested
without a truthy selector. -/
def build_apply_args (args : GitopsArgs) (prune : Bool) : Except PyExit (List String) :=
  let applyArgs := ["apply", "-f", "-"]
  let applyArgs := if args.server_side then applyArgs ++ ["--server-side"] else applyArgs
  if prune then
    if strFalsy args.selector then Except.error (PyExit.msg "Prune operations require --selector")
    else Except.ok (applyArgs ++ ["--prune", "-l", args.selector.getD ""])
  else Except.ok applyArgs

/-- `apply_manifest` from gitops-lite.py lines 98-111: build the argument list
(raising before any cluster call on a config error), run the binary once, and
raise its exit code when non-zero. Returns the outcome and the calls made. -/
def apply_manifest (k : KubeOracle) (manifest : String) (args : GitopsArgs)
    (prune : Bool) : Except PyExit Unit × List Call :=
  match build_apply_args args prune with
  | Except.error e => (Except.error e, [])
  | Except.ok a =>
    let c : Call := { args := a, input := some manifest }
    let p := k c
    (if p.returncode ≠ 0 then Except.error (PyExit.code p.returncode) else Except.ok (), [c])

/-- `prune_manifest` from gitops-lite.py lines 114-123: identical to apply
with pruning forced on. -/
def prune_manifest (k : KubeOracle) (manifest : String) (args : GitopsArgs) :
    Except PyExit Unit × List Call :=
  match build_apply_args args true with
  | Except.error e => (Except.error e, [])
  | Except.ok a =>
    let c : Call := { args := a, input := some manifest }
    let p := k c
    (if p.returncode ≠ 0 then Except.error (PyExit.code p.returncode) else Except.ok (), [c])

/-- `cmd_apply` (gitops-lite.py lines 220-223), from the rendered manifest on. -/
def cmd_apply (k : KubeOracle) (manifest : String) (args : GitopsArgs) :
    Except PyExit Unit × List Call :=
  apply_manifest k manifest args args.enable_prune

/-- `cmd_prune` (gitops-lite.py lines 226-229), from the rendered manifest on. -/
def cmd_prune (k : KubeOracle) (manifest : String) (args : GitopsArgs) :
    Except PyExit Unit × List Call :=
  prune_manifest k manifest args

/-- `cmd_sync` (gitops-lite.py lines 232-237): apply without pruning, then —
only when `--enable-prune` was given and the apply did not raise — prune. -/
def cmd_sync (k : KubeOracle) (manifest : String) (args : GitopsArgs) :
    Except PyExit Unit × List Call :=
  match apply_manifest k manifest args false with
  | (Except.error e, t1) => (Except.error e, t1)
  | (Except.ok _, t1) =>
    if args.enable_prune then
      let pr := prune_manifest k manifest args
      (pr.1, t1 ++ pr.2)
    else (Except.ok (), t1)

/-! ### status and validate -/

/-- A parsed manifest resource, as far as gitops-lite reads it: `kind`,
`metadata.name`, `metadata.namespace`, `metadata.labels`. `none` fields model
absent keys (absent `metadata` gives all fields `none`); label values are
modelled as strings. -/
structure Res where
  kind : Option String := none
  name : Option String := none
  ns : Option String := none
  labels : Option (List (String × String)) := none
  deriving DecidableEq, Repr

/-- A parsed YAML document: either a non-mapping document or a resource
mapping. -/
inductive PyDoc
  | scalar
  | res (r : Res)
  deriving DecidableEq, Repr

/-- Python truthiness of an optional string field value. -/
def strTruthy : Option String → Bool
  | none => false
  | some s => s ≠ ""

/-- The resource filter at gitops-lite.py line 136: mapping documents with a
truthy `kind`. -/
def statusResources (docs : List PyDoc) : List Res :=
  docs.filterMap fun d =>
    match d with
    | PyDoc.scalar => none
    | PyDoc.res r => if strTruthy r.kind then some r else none

/-- One of the three classification labels. -/
inductive Status
  | Added
  | Changed
  | Same
  deriving DecidableEq, Repr

/-- The per-status counters of `summarize_status`. -/
structure StatusCounts where
  added : Nat
  changed : Nat
  same : Nat
  deriving DecidableEq, Repr

/-- Increment the counter of one status. -/
def StatusCounts.bump (c : StatusCounts) : Status → StatusCounts
  | Status.Added => { c with added := c.added + 1 }
  | Status.Changed => { c with changed := c.changed + 1 }
  | Status.Same => { c with same := c.same + 1 }

/-- The classification at gitops-lite.py lines 169-174, given the diff exit
code and the get exit code (0 = resource exists, 1 = not found). -/
def classifyStatus (diffCode getCode : Int) : Status :=
  let exists_ := getCode = 0
  if diffCode = 0 ∧ exists_ then Status.Same
  else if ¬exists_ then Status.Added
  else Status.Changed

/-- One printed status line `kind/[ns/]name: status`, kept structurally. -/
structure StatusLine where
  kind : String
  ns : Option String
  name : String
  status : Status
  deriving DecidableEq, Repr

/-- The get-arguments at gitops-lite.py lines 158-161 (`-n` only for a truthy
namespace). -/
def getArgsFor (r : Res) : List String :=
  if strTruthy r.ns then
    ["get", r.kind.getD "", r.name.getD "", "-n", r.ns.getD ""]
  else
    ["get", r.kind.getD "", r.name.getD ""]

/-- The per-resource loop of `summarize_status` (gitops-lite.py lines
143-177): skip unnamed resources; run diff on the single-resource document
(any exit outside 0/1 raises), then get (any exit outside 0/1 raises),
classify, count, and record the line. `dump` stands for `yaml.safe_dump`. -/
def statusLoop (k : KubeOracle) (dump : Res → String) :
    List Res → Except Int (StatusCounts × List StatusLine)
  | [] => Except.ok ({ added := 0, changed := 0, same := 0 }, [])
  | r :: rest =>
    if strTruthy r.name ∧ strTruthy r.kind then
      let diffP := k { args := ["diff", "-f", "-"], input := some (dump r) }
      if diffP.returncode = 0 ∨ diffP.returncode = 1 then
        let getP := k { args := getArgsFor r, input := none }
        if getP.returncode = 0 ∨ getP.returncode = 1 then
          let st := classifyStatus diffP.returncode getP.returncode
          match statusLoop k dump rest with
          | Except.error c => Except.error c
          | Except.ok (counts, lines) =>
            Except.ok (counts.bump st,
              { kind := r.kind.getD "", ns := if strTruthy r.ns then r.ns else none,
                name := r.name.getD "", status := st } :: lines)
        else Except.error getP.returncode
      else Except.error diffP.returncode
    else statusLoop k dump rest

/-- `summarize_status` (gitops-lite.py lines 135-180): `none` models the
"no Kubernetes resources detected" early return, `some` a completed run with
its summary counts and per-resource lines. -/
def summarize_status (k : KubeOracle) (dump : Res → String) (docs : List PyDoc) :
    Except Int (Option (StatusCounts × List StatusLine)) :=
  let resources := statusResources docs
  if resources = [] then Except.ok none
  else (statusLoop k dump resources).map some

/-- The number of documents with both a truthy `kind` and a truthy
`metadata.name` — the resources the status verb counts. -/
def countNamed (docs : List PyDoc) : Nat :=
  (statusResources docs).countP (fun r => strTruthy r.name ∧ strTruthy r.kind)

/-- `REQUIRED_LABELS` from gitops-lite.py lines 17-20, in insertion order. -/
def REQUIRED_LABELS : List (String × String) :=
  [("app.kubernetes.io/part-of", "soe-eda-runner"), ("gitops-lite", "managed")]

/-- One validation error line, kept structurally: the source formats it as
`Resource <ns-or-cluster>/<name> missing label <key>=<expected>`. -/
structure LabelErr where
  ns : String
  name : String
  key : String
  expected : String
  deriving DecidableEq, Repr

/-- The error lines one document contributes in `validate_labels`
(gitops-lite.py lines 185-196): one per required label whose value differs
from the expected constant; non-mapping documents contribute none. -/
def docLabelErrs (d : PyDoc) : List LabelErr :=
  match d with
  | PyDoc.scalar => []
  | PyDoc.res r =>
    REQUIRED_LABELS.filterMap fun kv =>
      if alookup (r.labels.getD []) kv.1 = some kv.2 then none
      else some { ns := r.ns.getD "cluster", name := r.name.getD "<unknown>",
                  key := kv.1, expected := kv.2 }

/-- `validate_labels` (gitops-lite.py lines 183-197): the concatenation of the
documents' error lines, in manifest order. -/
def validate_labels (docs : List PyDoc) : List LabelErr :=
  docs.flatMap docLabelErrs

/-- `cmd_validate` (gitops-lite.py lines 240-256) from the rendered manifest
and its parsed documents on: on any label error, print the errors and raise
`SystemExit(1)` before the kubectl runner is even constructed; otherwise run
one server dry-run apply and mirror its exit code. -/
def cmd_validate (k : KubeOracle) (manifest : String) (docs : List PyDoc) :
    Except PyExit Unit × List Call :=
  let label_errors := validate_labels docs
  if label_errors ≠ [] then (Except.error (PyExit.code 1), [])
  else
    let c : Call := { args := ["apply", "--dry-run=server", "-f", "-"], input := some manifest }
    let p := k c
    (if p.returncode ≠ 0 then Except.error (PyExit.code p.returncode) else Except.ok (), [c])

/-! ### promotion: configmap patching (auto_promote.py lines 66-87, 148-184)

`update_configmap` performs up to three `re.sub` substitutions with patterns
of the shape `(KEY:\s*)".*?"` and replacement `\1"<value>"`. That regex
family is embedded concretely below: at a match position the literal `KEY:`
is consumed, then a maximal run of whitespace, then a double-quoted value
that may not span a newline (`.` does not match newline); `re.sub` rewrites
all non-overlapping occurrences left to right. The recursion carries fuel
equal to the string length, which suffices because every step consumes at
least one character. -/

/-- Python `\s` character class. -/
def isPySpace (c : Char) : Bool :=
  c = ' ' ∨ c = '\t' ∨ c = '\n' ∨ c = '\r' ∨ c = '\x0b' ∨ c = '\x0c'

/-- Strip an exact leading character sequence, returning the remainder. -/
def stripLit : List Char → List Char → Option (List Char)
  | [], cs => some cs
  | _ :: _, [] => none
  | p :: ps, c :: cs => if p = c then stripLit ps cs else none

/-- Scan for the closing double quote of `".*?"`: the first `"` not past a
newline; returns the remainder after it. -/
def scanToQuote : List Char → Option (List Char)
  | [] => none
  | c :: cs =>
    if c = '"' then some cs
    else if c = '\n' then none
    else scanToQuote cs

/-- Try to match `(KEY:\s*)".*?"` at the head of `cs`; on success return the
first capture group (`KEY:` plus the whitespace run) and the remainder after
the closing quote. -/
def matchKeyAt (key : List Char) (cs : List Char) : Option (List Char × List Char) :=
  match stripLit (key ++ [':']) cs with
  | none => none
  | some rest =>
    let ws := rest.takeWhile isPySpace
    let rest2 := rest.dropWhile isPySpace
    match rest2 with
    | [] => none
    | c :: tail =>
      if c = '"' then
        match scanToQuote tail with
        | none => none
        | some after => some (key ++ ':' :: ws, after)
      else none

/-- `re.sub` for pattern `(KEY:\s*)".*?"` with replacement `\1"<newval>"`,
rewriting all non-overlapping occurrences left to right. -/
def subAllFuel (key newval : List Char) : Nat → List Char → List Char
  | 0, cs => cs
  | _ + 1, [] => []
  | fuel + 1, c :: cs =>
    match matchKeyAt key (c :: cs) with
    | some (g1, rest) => g1 ++ '"' :: (newval ++ '"' :: subAllFuel key newval fuel rest)
    | none => c :: subAllFuel key newval fuel cs

/-- String-level wrapper for the substitution. -/
def pySub (key newval s : String) : String :=
  String.mk (subAllFuel key.data newval.data s.data.length s.data)

/-- Leading-sequence test used by the substring check. -/
def hasPrefixLit (p cs : List Char) : Bool :=
  (stripLit p cs).isSome

/-- Python substring membership `needle in hay`. -/
def containsSub (needle : List Char) : List Char → Bool
  | [] => needle.isEmpty
  | c :: cs => hasPrefixLit needle (c :: cs) || containsSub needle cs

/-- String-level substring membership. -/
def strContains (hay needle : String) : Bool :=
  containsSub needle.data hay.data

/-- File-system / version-control effects of the promotion path. -/
inductive FAction
  | writeFile (content : String)
  | gitAdd
  | gitCommit (msg : String)
  deriving DecidableEq, Repr

/-- The guarded substitution chain of `update_configmap` (auto_promote.py
lines 75-81): substitute `MODEL_PATH`, then `MODEL_FORMAT`, then — when a
truthy metadata URI was derived — `MODEL_META_PATH`, each only when the key
occurs verbatim in the text at that point. -/
def substitutedText (text : String) (model_uri model_format : String)
    (metadata_uri : Option String) : String :=
  let updated := text
  let updated := if strContains text "MODEL_PATH" then pySub "MODEL_PATH" model_uri updated
    else updated
  let updated := if strContains updated "MODEL_FORMAT" then
      pySub "MODEL_FORMAT" model_format updated
    else updated
  match metadata_uri with
  | some mu =>
    if mu ≠ "" ∧ strContains updated "MODEL_META_PATH" then
      pySub "MODEL_META_PATH" mu updated
    else updated
  | none => updated

/-- `update_configmap` (auto_promote.py lines 73-87) on the configuration
file's text: perform the guarded substitutions; raise `RuntimeError` exactly
when the substituted text equals the original, otherwise write the file and
stage it. Returns the outcome together with the effects performed. -/
def update_configmap (text : String) (model_uri model_format : String)
    (metadata_uri : Option String) : Except String Unit × List FAction :=
  let updated := substitutedText text model_uri model_format metadata_uri
  if updated = text then (Except.error "Unable to update MODEL_PATH", [])
  else (Except.ok (), [FAction.writeFile updated, FAction.gitAdd])

/-- Everything before the last `/` of a URI (`uri.rsplit("/", 1)[0]`; the
whole string when no slash occurs). -/
def dirOfUri (s : String) : String :=
  match s.data.reverse.dropWhile (fun c => c ≠ '/') with
  | [] => s
  | _ :: rest => String.mk rest.reverse

/-- ASCII lowercase of a string (`str.lower`). -/
def strLower (s : String) : String :=
  String.mk (s.data.map Char.toLower)

/-- `endswith` test. -/
def strEndsWith (s suffix : String) : Bool :=
  hasPrefixLit suffix.data.reverse s.data.reverse

/-- `startswith` test. -/
def strStartsWith (s p : String) : Bool :=
  hasPrefixLit p.data s.data

/-- The promotion tail of `main` (auto_promote.py lines 164-177) given a
positive verdict: derive the metadata URI for s3 artifacts and the model
format from the URI suffix, patch the configuration file, and only after a
successful patch commit the staged change. The effects trace shows what was
performed before any raise. -/
def promoteMain (config_text : String) (model_uri : String) :
    Except String Unit × List FAction :=
  let metadata_uri :=
    if strStartsWith model_uri "s3://" then
      some (dirOfUri model_uri ++ "/model-metadata.json")
    else none
  let model_format := if strEndsWith (strLower model_uri) ".onnx" then "onnx" else "pkl"
  match update_configmap config_text model_uri model_format metadata_uri with
  | (Except.error e, t) => (Except.error e, t)
  | (Except.ok _, t) =>
    (Except.ok (), t ++ [FAction.gitCommit ("chore: promote model -> " ++ model_uri)])

/-! ## Theorems -/

/-- Subtracting a Python float from itself gives either exact zero (finite
values) or NaN (infinities and NaN). -/
theorem PyFloat.sub_self_cases (x : PyFloat) :
    x.sub x = PyFloat.fin 0 ∨ x.sub x = PyFloat.nan := by
  cases x <;> simp [PyFloat.sub]

/-- Neither zero nor NaN reaches a strictly positive finite bound under
`>=`. -/
theorem PyFloat.ge_pos_of_zero_or_nan (x : PyFloat) (q : ℚ) (hq : 0 < q)
    (hx : x = PyFloat.fin 0 ∨ x = PyFloat.nan) :
    PyFloat.ge x (PyFloat.fin q) = false := by
  rcases hx with h | h <;> subst h <;> simp [PyFloat.ge]
  exact hq

/-- C4: `evaluate` with an empty candidate snapshot returns
`improved = false` with reason "candidate metrics unavailable", for every
current snapshot (the empty-candidate case is checked first, so it wins even
when current is also empty); and with a non-empty candidate and an empty
current snapshot it returns `improved = true` with reason "no current
model". -/
theorem C4_evaluate_empty_snapshots (current candidate thresholds : List (String × PyFloat))
    (h : candidate ≠ []) :
    evaluate current [] thresholds = (false, [Reason.candidateUnavailable]) ∧
    evaluate [] candidate thresholds = (true, [Reason.noCurrentModel]) := by
  constructor
  · rfl
  · simp [evaluate, h]

/-- Witness for C4 at concrete snapshots. -/
theorem C4_evaluate_empty_snapshots_witness :
    evaluate [("r2", PyFloat.fin 1)] [] [] = (false, [Reason.candidateUnavailable]) ∧
    evaluate [] [("r2", PyFloat.fin 1)] [] = (true, [Reason.noCurrentModel]) :=
  C4_evaluate_empty_snapshots [("r2", PyFloat.fin 1)] [("r2", PyFloat.fin 1)] []
    (List.cons_ne_nil _ _)

/-- C3: for non-empty current and candidate snapshots and every thresholds
mapping, the verdict of `evaluate` is exactly the specification formula
(r2 gain at least `r2_min_gain` AND rmse drop at least `rmse_min_drop`,
missing r2 defaulting to 0.0 and missing rmse to +infinity); and a candidate
identical to the current snapshot is never improved whenever both thresholds
are positive finite values. -/
theorem C3_evaluate_formula (current candidate thresholds : List (String × PyFloat))
    (hcur : current ≠ []) (hcand : candidate ≠ []) :
    (evaluate current candidate thresholds).1 = improvedSpec current candidate thresholds ∧
    (candidate = current →
      ∀ q1 q2 : ℚ, 0 < q1 → 0 < q2 →
        dgetD thresholds "r2_min_gain" (PyFloat.fin (1 / 100)) = PyFloat.fin q1 →
        dgetD thresholds "rmse_min_drop" (PyFloat.fin 100) = PyFloat.fin q2 →
        (evaluate current candidate thresholds).1 = false) := by
  constructor
  · simp [evaluate, improvedSpec, hcur, hcand]
  · intro hid q1 q2 hq1 hq2 ht1 ht2
    subst hid
    simp only [evaluate, hcur, hcand, if_neg, ht1]
    have hzn := PyFloat.sub_self_cases (dgetD candidate "r2" (PyFloat.fin 0))
    have := PyFloat.ge_pos_of_zero_or_nan _ q1 hq1 hzn
    simp [this, hcand]

/-- Witness for C3: at concrete identical snapshots and the built-in
(positive) thresholds, the verdict is not improved. -/
theorem C3_evaluate_formula_witness :
    (evaluate [("r2", PyFloat.fin (4 / 5)), ("rmse", PyFloat.fin 600)]
        [("r2", PyFloat.fin (4 / 5)), ("rmse", PyFloat.fin 600)] []).1 = false :=
  (C3_evaluate_formula [("r2", PyFloat.fin (4 / 5)), ("rmse", PyFloat.fin 600)]
    [("r2", PyFloat.fin (4 / 5)), ("rmse", PyFloat.fin 600)] []
    (List.cons_ne_nil _ _) (List.cons_ne_nil _ _)).2 rfl
    (1 / 100) 100 (by norm_num) (by norm_num) rfl rfl

/-- C5: the classification a processed resource receives in the status verb
(diff and get both completed, exit codes in {0, 1}): diff 0 and the resource
existing give Same; a get miss gives Added whatever the diff exit was;
existing with a non-zero diff gives Changed. -/
theorem C5_status_classification (diffCode getCode : Int)
    (hd : diffCode = 0 ∨ diffCode = 1) (hg : getCode = 0 ∨ getCode = 1) :
    (diffCode = 0 → getCode = 0 → classifyStatus diffCode getCode = Status.Same) ∧
    (getCode = 1 → classifyStatus diffCode getCode = Status.Added) ∧
    (getCode = 0 → diffCode ≠ 0 → classifyStatus diffCode getCode = Status.Changed) := by
  refine ⟨fun h1 h2 => ?_, fun h1 => ?_, fun h1 h2 => ?_⟩
  · subst h1; subst h2; rfl
  · subst h1; rcases hd with h | h <;> subst h <;> rfl
  · subst h1
    rcases hd with h | h
    · exact absurd h h2
    · subst h; rfl

/-- Witness for C5 at concrete exit codes: diff reporting differences and
the resource absent classify as Added. -/
theorem C5_status_classification_witness :
    classifyStatus 1 1 = Status.Added :=
  (C5_status_classification 1 1 (Or.inr rfl) (Or.inr rfl)).2.1 rfl

/-- The single cluster call the first (apply) step of `cmd_sync` makes. -/
def syncApplyCall (args : GitopsArgs) (manifest : String) : Call :=
  { args := if args.server_side then ["apply", "-f", "-", "--server-side"]
      else ["apply", "-f", "-"],
    input := some manifest }

/-- The non-pruning apply step in closed form: one plain apply call,
mirroring its exit code. -/
theorem apply_manifest_noprune_eq (k : KubeOracle) (manifest : String) (args : GitopsArgs) :
    apply_manifest k manifest args false =
      (if (k (syncApplyCall args manifest)).returncode ≠ 0 then
          Except.error (PyExit.code (k (syncApplyCall args manifest)).returncode)
        else Except.ok (),
        [syncApplyCall args manifest]) := by
  have harg : build_apply_args args false = Except.ok (syncApplyCall args manifest).args := by
    rcases args with ⟨ss, ep, sel⟩
    cases ss <;> rfl
  simp only [apply_manifest, harg]
  rfl

/-- Closed form of `cmd_sync`: one plain apply call, then — only on apply
success — the prune step exactly when pruning is enabled. -/
theorem cmd_sync_eq (k : KubeOracle) (manifest : String) (args : GitopsArgs) :
    cmd_sync k manifest args =
      if (k (syncApplyCall args manifest)).returncode ≠ 0 then
        (Except.error (PyExit.code (k (syncApplyCall args manifest)).returncode),
          [syncApplyCall args manifest])
      else if args.enable_prune then
        ((prune_manifest k manifest args).1,
          syncApplyCall args manifest :: (prune_manifest k manifest args).2)
      else (Except.ok (), [syncApplyCall args manifest]) := by
  simp only [cmd_sync, apply_manifest_noprune_eq]
  by_cases h : (k (syncApplyCall args manifest)).returncode = 0 <;> simp [h]

/-- C7: with pruning requested and a falsy (absent or empty) selector, the
prune verb and the apply verb fail with the configuration error before any
cluster call (empty call trace); and a sync never issues a pruning call: its
prune step raises the same configuration error with zero calls of its own,
so no call of the whole sync carries `--prune`. -/
theorem C7_prune_requires_selector (k : KubeOracle) (manifest : String) (args : GitopsArgs)
    (hsel : strFalsy args.selector = true) (hp : args.enable_prune = true) :
    cmd_prune k manifest args =
      (Except.error (PyExit.msg "Prune operations require --selector"), []) ∧
    cmd_apply k manifest args =
      (Except.error (PyExit.msg "Prune operations require --selector"), []) ∧
    prune_manifest k manifest args =
      (Except.error (PyExit.msg "Prune operations require --selector"), []) ∧
    (∀ c ∈ (cmd_sync k manifest args).2, ¬ ("--prune" ∈ c.args)) := by
  have hpr : prune_manifest k manifest args =
      (Except.error (PyExit.msg "Prune operations require --selector"), []) := by
    simp [prune_manifest, build_apply_args, hsel]
  refine ⟨hpr, ?_, hpr, ?_⟩
  · simp [cmd_apply, hp, apply_manifest, build_apply_args, hsel]
  · intro c hc
    rw [cmd_sync_eq] at hc
    have htr : c = syncApplyCall args manifest := by
      by_cases h : (k (syncApplyCall args manifest)).returncode = 0 <;>
        simp [h, hp, hpr] at hc <;> simp [hc]
    subst htr
    rcases args with ⟨ss, ep, sel⟩
    cases ss <;> simp [syncApplyCall]

/-- Witness for C7 with an absent selector and a succeeding cluster oracle:
the prune verb fails with the configuration error and zero cluster calls. -/
theorem C7_prune_requires_selector_witness :
    cmd_prune (fun _ => { returncode := 0, stdout := "", stderr := "" }) "m"
        { server_side := false, enable_prune := true, selector := none } =
      (Except.error (PyExit.msg "Prune operations require --selector"), []) :=
  (C7_prune_requires_selector (fun _ => { returncode := 0, stdout := "", stderr := "" }) "m"
    { server_side := false, enable_prune := true, selector := none } rfl rfl).1

/-- C1 counterexample: with pruning enabled, a valid selector and an apply
that fails (exit code 1), the sync verb raises the apply's exit code having
made exactly one cluster call — the plain apply — and never performs the
prune step, contradicting the claimed best-effort prune after a failed
apply. -/
theorem C1_counterexample_no_prune_after_failed_apply :
    cmd_sync (fun _ => { returncode := 1, stdout := "", stderr := "error" }) "m"
        { server_side := false, enable_prune := true, selector := some "app=x" } =
      (Except.error (PyExit.code 1),
        [{ args := ["apply", "-f", "-"], input := some "m" }]) := by
  rfl

/-- C1 amended: the sync verb first applies without pruning; when that apply
exits non-zero, sync raises that exit code at once, with the plain apply as
its only cluster call and no prune step attempted; only when the apply
succeeds does sync run the prune step (exactly when pruning is enabled). -/
theorem C1_sync_prunes_only_after_successful_apply (k : KubeOracle) (manifest : String)
    (args : GitopsArgs) :
    ((k (syncApplyCall args manifest)).returncode ≠ 0 →
      cmd_sync k manifest args =
        (Except.error (PyExit.code (k (syncApplyCall args manifest)).returncode),
          [syncApplyCall args manifest])) ∧
    ((k (syncApplyCall args manifest)).returncode = 0 → args.enable_prune = true →
      cmd_sync k manifest args =
        ((prune_manifest k manifest args).1,
          syncApplyCall args manifest :: (prune_manifest k manifest args).2)) ∧
    ((k (syncApplyCall args manifest)).returncode = 0 → args.enable_prune = false →
      cmd_sync k manifest args = (Except.ok (), [syncApplyCall args manifest])) := by
  refine ⟨fun hfail => ?_, fun hok hep => ?_, fun hok hep => ?_⟩ <;>
    rw [cmd_sync_eq] <;> simp_all

/-- Witness for the amended C1 with a failing apply oracle: sync stops at
the apply's exit code having made only the plain apply call. -/
theorem C1_sync_prunes_only_after_successful_apply_witness :
    cmd_sync (fun _ => { returncode := 1, stdout := "", stderr := "error" }) "m"
        { server_side := false, enable_prune := true, selector := some "app=x" } =
      (Except.error (PyExit.code 1),
        [syncApplyCall { server_side := false, enable_prune := true, selector := some "app=x" }
          "m"]) :=
  (C1_sync_prunes_only_after_successful_apply
    (fun _ => { returncode := 1, stdout := "", stderr := "error" }) "m"
    { server_side := false, enable_prune := true, selector := some "app=x" }).1 (by decide)

/-- C9: when none of the expected keys (MODEL_PATH, MODEL_FORMAT,
MODEL_META_PATH) occur verbatim in the configuration file, a promotion with
a positive verdict fails with the fatal configuration error, performs no
file write and no version-control action (empty effect trace: nothing
staged, nothing committed). -/
theorem C9_missing_keys_abort_promotion (text model_uri : String)
    (h1 : strContains text "MODEL_PATH" = false)
    (h2 : strContains text "MODEL_FORMAT" = false)
    (h3 : strContains text "MODEL_META_PATH" = false) :
    promoteMain text model_uri = (Except.error "Unable to update MODEL_PATH", []) := by
  have hsub : ∀ (fmt : String) (mu : Option String),
      substitutedText text model_uri fmt mu = text := by
    intro fmt mu
    cases mu <;> simp [substitutedText, h1, h2, h3]
  simp [promoteMain, update_configmap, hsub]

/-- Witness for C9 on a configuration file without any of the expected
keys. -/
theorem C9_missing_keys_abort_promotion_witness :
    promoteMain "replicas: 3\n" "s3://bucket/models/m.onnx" =
      (Except.error "Unable to update MODEL_PATH", []) :=
  C9_missing_keys_abort_promotion "replicas: 3\n" "s3://bucket/models/m.onnx" rfl rfl rfl

set_option maxRecDepth 100000 in
/-- C10: `update_configmap` raises its fatal error exactly when the
substituted text equals the original text; consequently, promoting to an
overlay whose configuration file already names the candidate's model URI,
format and metadata URI verbatim fails — even though all expected keys are
present in the file — so re-promoting the currently deployed artifact is not
idempotent. -/
theorem C10_repromotion_of_deployed_artifact_fails (text model_uri model_format : String)
    (metadata_uri : Option String) :
    ((update_configmap text model_uri model_format metadata_uri).1 =
        Except.error "Unable to update MODEL_PATH" ↔
      substitutedText text model_uri model_format metadata_uri = text) ∧
    promoteMain
        "MODEL_PATH: \"s3://bucket/models/m.onnx\"\nMODEL_FORMAT: \"onnx\"\nMODEL_META_PATH: \"s3://bucket/models/model-metadata.json\"\n"
        "s3://bucket/models/m.onnx" =
      (Except.error "Unable to update MODEL_PATH", []) ∧
    strContains
        "MODEL_PATH: \"s3://bucket/models/m.onnx\"\nMODEL_FORMAT: \"onnx\"\nMODEL_META_PATH: \"s3://bucket/models/model-metadata.json\"\n"
        "MODEL_PATH" = true ∧
    strContains
        "MODEL_PATH: \"s3://bucket/models/m.onnx\"\nMODEL_FORMAT: \"onnx\"\nMODEL_META_PATH: \"s3://bucket/models/model-metadata.json\"\n"
        "MODEL_FORMAT" = true ∧
    strContains
        "MODEL_PATH: \"s3://bucket/models/m.onnx\"\nMODEL_FORMAT: \"onnx\"\nMODEL_META_PATH: \"s3://bucket/models/model-metadata.json\"\n"
        "MODEL_META_PATH" = true := by
  refine ⟨?_, by rfl, by rfl, by rfl, by rfl⟩
  by_cases h : substitutedText text model_uri model_format metadata_uri = text <;>
    simp [update_configmap, h]

/-- Association lookup distributes over append: the left list wins. -/
theorem alookup_append {α : Type} (l1 l2 : List (String × α)) (k : String) :
    alookup (l1 ++ l2) k =
      match alookup l1 k with
      | some v => some v
      | none => alookup l2 k := by
  induction l1 with
  | nil => simp [alookup]
  | cons p ps ih =>
    by_cases h : p.1 = k <;> simp [alookup, h, ih]

/-- Lookup in the value-overridden copy of `base` built by `dictMerge`. -/
theorem alookup_map_override {α : Type} (upd base : List (String × α)) (k : String) :
    alookup (base.map (fun p => (p.1, (alookup upd p.1).getD p.2))) k =
      (alookup base k).map (fun v => (alookup upd k).getD v) := by
  induction base with
  | nil => rfl
  | cons p ps ih =>
    by_cases h : p.1 = k <;> simp [alookup, h, ih]

/-- Filtering with a predicate that keeps every pair keyed `k` does not
change the lookup at `k`. -/
theorem alookup_filter_keep {α : Type} (pred : String × α → Bool) (l : List (String × α))
    (k : String) (h : ∀ p : String × α, p.1 = k → pred p = true) :
    alookup (l.filter pred) k = alookup l k := by
  induction l with
  | nil => rfl
  | cons p ps ih =>
    by_cases hk : p.1 = k
    · simp [List.filter_cons, h p hk, alookup, hk]
    · cases hp : pred p <;> simp [List.filter_cons, hp, alookup, hk, ih]

/-- Lookup after a Python dict merge `{**base, **upd}`: the update's value
wherever the update has the key, the base's value otherwise. -/
theorem alookup_dictMerge (base upd : List (String × YVal)) (k : String) :
    alookup (dictMerge base upd) k =
      match alookup upd k with
      | some v => some v
      | none => alookup base k := by
  unfold dictMerge
  rw [alookup_append, alookup_map_override]
  cases hb : alookup base k with
  | some v => cases hu : alookup upd k <;> simp
  | none =>
    rw [alookup_filter_keep _ _ _ (fun p hp => by rw [hp, hb]; rfl)]
    cases hu : alookup upd k <;> simp

/-- C2 counterexample: a policy document carrying a non-numeric (string)
value for `r2_min_gain` still overrides the numeric built-in default — the
merge is not restricted to numeric document values, contradicting the
claimed type condition. -/
theorem C2_counterexample_non_numeric_override :
    alookup (load_policy (some
        { thresholds := [("r2_min_gain", YVal.str "high")], actions := [] })).thresholds
      "r2_min_gain" = some (YVal.str "high") ∧
    alookup DEFAULT_POLICY_thresholds "r2_min_gain" = some (YVal.num (1 / 100)) :=
  ⟨rfl, rfl⟩

/-- C2 amended: loading the promotion policy merges the document's
thresholds and actions field-by-field over the built-in defaults with the
document value taking precedence whenever the field is present in the
document, regardless of its type; when the policy file is absent the
built-in defaults are returned verbatim. -/
theorem C2_policy_merge_unconditional (d : PolicyDoc) (k : String) :
    (∀ v, alookup d.thresholds k = some v →
      alookup (load_policy (some d)).thresholds k = some v) ∧
    (alookup d.thresholds k = none →
      alookup (load_policy (some d)).thresholds k = alookup DEFAULT_POLICY_thresholds k) ∧
    (∀ v, alookup d.actions k = some v →
      alookup (load_policy (some d)).actions k = some v) ∧
    (alookup d.actions k = none →
      alookup (load_policy (some d)).actions k = alookup DEFAULT_POLICY_actions k) ∧
    load_policy none =
      { thresholds := DEFAULT_POLICY_thresholds, actions := DEFAULT_POLICY_actions } := by
  refine ⟨fun v hv => ?_, fun hn => ?_, fun v hv => ?_, fun hn => ?_, rfl⟩
  · simp [load_policy, alookup_dictMerge, hv]
  · simp [load_policy, alookup_dictMerge, hn]
  · simp [load_policy, alookup_dictMerge, hv]
  · simp [load_policy, alookup_dictMerge, hn]

/-- Witness for the amended C2: the non-numeric document value wins in the
merged policy. -/
theorem C2_policy_merge_unconditional_witness :
    alookup (load_policy (some
        { thresholds := [("r2_min_gain", YVal.str "high")], actions := [] })).thresholds
      "r2_min_gain" = some (YVal.str "high") :=
  (C2_policy_merge_unconditional
    { thresholds := [("r2_min_gain", YVal.str "high")], actions := [] }
    "r2_min_gain").1 (YVal.str "high") rfl

/-- C8 counterexample: a single resource carrying neither required
governance label produces two error lines — one per violated label, both
naming the same resource — so an offending resource is not listed "exactly
once". -/
theorem C8_counterexample_resource_listed_twice :
    validate_labels
        [PyDoc.res { kind := some "Deployment", name := some "app", ns := none, labels := none }] =
      [{ ns := "cluster", name := "app", key := "app.kubernetes.io/part-of",
          expected := "soe-eda-runner" },
        { ns := "cluster", name := "app", key := "gitops-lite", expected := "managed" }] ∧
    (validate_labels
        [PyDoc.res
          { kind := some "Deployment", name := some "app", ns := none, labels := none }]).length =
      2 :=
  ⟨rfl, rfl⟩

/-- C8 amended: on a manifest with at least one governance-label violation,
the validate verb lists, in manifest order, one error per violated required
label of each offending resource (so a resource may appear up to twice), and
exits with failure before any cluster contact — zero cluster-client calls on
the failure path. -/
theorem C8_validate_lists_violations_and_stops (k : KubeOracle) (manifest : String)
    (docs : List PyDoc) (h : validate_labels docs ≠ []) :
    cmd_validate k manifest docs = (Except.error (PyExit.code 1), []) ∧
    validate_labels docs = docs.flatMap docLabelErrs ∧
    (validate_labels docs).length = (docs.map (fun d => (docLabelErrs d).length)).sum := by
  refine ⟨?_, rfl, ?_⟩
  · simp [cmd_validate, h]
  · simp only [validate_labels, List.length_flatMap, Function.comp_def]

/-- Witness for the amended C8 on a one-resource unlabeled manifest. -/
theorem C8_validate_lists_violations_and_stops_witness :
    cmd_validate (fun _ => { returncode := 0, stdout := "", stderr := "" }) "m"
        [PyDoc.res
          { kind := some "Deployment", name := some "app", ns := none, labels := none }] =
      (Except.error (PyExit.code 1), []) :=
  (C8_validate_lists_violations_and_stops
    (fun _ => { returncode := 0, stdout := "", stderr := "" }) "m"
    [PyDoc.res { kind := some "Deployment", name := some "app", ns := none, labels := none }]
    (by simp [validate_labels, docLabelErrs, REQUIRED_LABELS, alookup])).1

/-- Bumping one status counter raises the total by exactly one. -/
theorem StatusCounts.bump_total (c : StatusCounts) (st : Status) :
    (c.bump st).added + (c.bump st).changed + (c.bump st).same =
      c.added + c.changed + c.same + 1 := by
  cases st <;> simp [StatusCounts.bump] <;> omega

/-- A completed status loop counts exactly once per resource with both a
truthy kind and a truthy name. -/
theorem statusLoop_counts_sum (k : KubeOracle) (dump : Res → String) (rs : List Res)
    (counts : StatusCounts) (lines : List StatusLine)
    (h : statusLoop k dump rs = Except.ok (counts, lines)) :
    counts.added + counts.changed + counts.same =
      rs.countP (fun r => strTruthy r.name ∧ strTruthy r.kind) := by
  induction rs generalizing counts lines with
  | nil =>
    simp [statusLoop] at h
    obtain ⟨h1, h2⟩ := h
    rw [← h1]
    rfl
  | cons r rest ih =>
    rw [statusLoop] at h
    by_cases hn : strTruthy r.name ∧ strTruthy r.kind
    · rw [if_pos hn] at h
      by_cases hd : (k { args := ["diff", "-f", "-"], input := some (dump r) }).returncode = 0 ∨
          (k { args := ["diff", "-f", "-"], input := some (dump r) }).returncode = 1
      · rw [if_pos hd] at h
        by_cases hg : (k { args := getArgsFor r, input := none }).returncode = 0 ∨
            (k { args := getArgsFor r, input := none }).returncode = 1
        · rw [if_pos hg] at h
          cases hrec : statusLoop k dump rest with
          | error c => rw [hrec] at h; exact absurd h (by simp)
          | ok p =>
            obtain ⟨c', l'⟩ := p
            rw [hrec] at h
            obtain ⟨hc, -⟩ := Prod.mk.injEq .. ▸ Except.ok.inj h
            rw [List.countP_cons, ← ih c' l' hrec, ← hc, StatusCounts.bump_total]
            simp [hn]
        · rw [if_neg hg] at h; exact absurd h (by simp)
      · rw [if_neg hd] at h; exact absurd h (by simp)
    · rw [if_neg hn] at h
      rw [List.countP_cons, ih counts lines h]
      simp [hn]

/-- C6: a completed run of the status verb that prints a summary has its
Added, Changed and Same counts summing to exactly the number of parsed
resources with both kind and name; and the only completed run that prints no
summary is on a manifest with no detected resources, where that number is
zero (documents lacking kind or name contribute to no count). -/
theorem C6_status_counts_sum_invariant (k : KubeOracle) (dump : Res → String)
    (docs : List PyDoc) (counts : StatusCounts) (lines : List StatusLine) :
    (summarize_status k dump docs = Except.ok (some (counts, lines)) →
      counts.added + counts.changed + counts.same = countNamed docs) ∧
    (summarize_status k dump docs = Except.ok none → countNamed docs = 0) := by
  constructor
  · intro h
    unfold summarize_status at h
    by_cases hres : statusResources docs = []
    · rw [if_pos hres] at h
      exact absurd h (by simp)
    · rw [if_neg hres] at h
      cases hrec : statusLoop k dump (statusResources docs) with
      | error c => rw [hrec] at h; exact absurd h (by simp [Except.map])
      | ok p =>
        obtain ⟨c', l'⟩ := p
        rw [hrec] at h
        simp only [Except.map] at h
        obtain ⟨hc, -⟩ := Prod.mk.injEq .. ▸ Option.some.inj (Except.ok.inj h)
        unfold countNamed
        rw [← hc]
        exact statusLoop_counts_sum k dump (statusResources docs) c' l' hrec
  · intro h
    unfold summarize_status at h
    by_cases hres : statusResources docs = []
    · unfold countNamed
      rw [hres]
      rfl
    · rw [if_neg hres] at h
      cases hrec : statusLoop k dump (statusResources docs) with
      | error c => rw [hrec] at h; exact absurd h (by simp [Except.map])
      | ok p => rw [hrec] at h; exact absurd h (by simp [Except.map])

/-- Witness for C6: a one-resource manifest against an oracle reporting no
differences and an existing resource sums to one. -/
theorem C6_status_counts_sum_invariant_witness :
    (0 : Nat) + 0 + 1 =
      countNamed
        [PyDoc.res
          { kind := some "Deployment", name := some "app", ns := none, labels := none }] :=
  (C6_status_counts_sum_invariant (fun _ => { returncode := 0, stdout := "", stderr := "" })
    (fun _ => "")
    [PyDoc.res { kind := some "Deployment", name := some "app", ns := none, labels := none }]
    { added := 0, changed := 0, same := 1 }
    [{ kind := "Deployment", ns := none, name := "app", status := Status.Same }]).1 (by rfl)

end SoeEda
